import Mathlib

/-!
Verification of the staleness-gated refresh engine of `src/main.py`
(a FastAPI weather-tracking app).

Shallow embedding conventions:
* `datetime` values are abstract integer time units (`Int`, think seconds);
  `datetime.utcnow()` becomes an explicit `now : Int` input; `timedelta(minutes=15)`
  becomes the integer `900`.
* Python floats (latitudes, longitudes, temperatures) are `Rat`.
* Python `None` on optional columns becomes `Option.none`.
* The database's city table is a `List City`; SQLAlchemy queries become list
  operations over it.
* `aiohttp` responses are explicit data (`HttpResponse`); a raised exception
  that the code catches becomes an `Option`/`Except` value; a raised exception
  that nothing catches becomes `Except.error` escaping the route handler.
-/

/-- Embeds the `City` ORM model (src/main.py lines 41-51): primary key `id`,
`name`, `latitude`, `longitude`, nullable `temperature`, nullable `updated_at`,
and the owning `user_id` foreign key. -/
structure City where
  id : Nat
  name : String
  latitude : Rat
  longitude : Rat
  temperature : Option Rat
  updated_at : Option Int
  user_id : Nat
deriving DecidableEq, Repr

/-- Embeds the `User` ORM model (src/main.py lines 22-28), keeping only the
fields the verified routes read. -/
structure User where
  id : Nat
  username : String
deriving DecidableEq, Repr

/-- Embeds the `DefaultCity` ORM model (src/main.py lines 53-58). -/
structure DefaultCity where
  id : Nat
  name : String
  latitude : Rat
  longitude : Rat
deriving DecidableEq, Repr

/-- The refresh-eligibility condition of `update_city` (src/main.py line 200):
`not city.updated_at or now - city.updated_at > timedelta(minutes=15)`, with the
cooldown made an explicit parameter (the code fixes it to 15 minutes; `update_city`
below instantiates `cooldown = 900`).  A `datetime` is always truthy in Python, so
`not city.updated_at` holds exactly when the column is NULL. -/
def is_eligible (lastRefreshedAt : Option Int) (now cooldown : Int) : Bool :=
  match lastRefreshedAt with
  | Option.none => true
  | Option.some t => decide (now - t > cooldown)

/-- Embeds the inner coroutine `update_city` (src/main.py lines 199-206): when the
city is eligible, its `temperature` is assigned the result of
`fetch_weather(session, city.latitude, city.longitude)` (the `provider` argument,
`Option.none` standing for a failed fetch) and its `updated_at` is assigned `now`;
otherwise the city is left untouched.  The code's fixed 15-minute cooldown is the
`cooldown` parameter, instantiated to `900` by `update_weather`. -/
def update_city (provider : Rat → Rat → Option Rat) (now cooldown : Int)
    (city : City) : City :=
  if is_eligible city.updated_at now cooldown then
    { city with
        temperature := provider city.latitude city.longitude,
        updated_at := Option.some now }
  else city

/-- Embeds the batch `await asyncio.gather(*(update_city(city) for city in cities))`
of `update_weather` (src/main.py line 208): each city is updated independently by
its own coroutine (no shared mutable state between them), so the merged result is
the pointwise image of `update_city`. -/
def refreshAll (provider : Rat → Rat → Option Rat) (now cooldown : Int)
    (cities : List City) : List City :=
  cities.map (update_city provider now cooldown)

/-- The cities for which `update_city` dispatches a `fetch_weather` network call:
exactly those passing the eligibility test on line 200 (the call on lines 201-205
sits inside that branch). -/
def fetchedCities (now cooldown : Int) (cities : List City) : List City :=
  cities.filter (fun c => is_eligible c.updated_at now cooldown)

/-- The Point invariant stated by the spec: the cached temperature and the
last-refreshed timestamp are both present or both absent. -/
def pointInv (c : City) : Prop :=
  c.temperature.isSome = c.updated_at.isSome

instance (c : City) : Decidable (pointInv c) := by
  unfold pointInv; infer_instance

/-- A Python value as produced by `await response.json()` (the `json` module
maps JSON null to Python `None`). -/
inductive PyVal where
  | none
  | bool (b : Bool)
  | int (n : Int)
  | float (q : Rat)
  | str (s : String)
  | list (xs : List PyVal)
  | dict (xs : List (String × PyVal))

/-- Python `dict.get(key, default)` on a dict known to be a dict. -/
def pyDictGet (xs : List (String × PyVal)) (k : String) (dflt : PyVal) : PyVal :=
  match xs.find? (fun p => p.1 == k) with
  | Option.none => dflt
  | Option.some p => p.2

/-- Python attribute call `v.get(key, default)` on an arbitrary value: raises
`AttributeError` (modelled as `Except.error`) when `v` is not a dict. -/
def pyGet (v : PyVal) (k : String) (dflt : PyVal) : Except Unit PyVal :=
  match v with
  | PyVal.dict xs => Except.ok (pyDictGet xs k dflt)
  | _ => Except.error ()

/-- The observable part of an `aiohttp` response: the HTTP status and the parsed
JSON body (`Option.none` when `await response.json()` raises on an unparsable
body). -/
structure HttpResponse where
  status : Int
  body : Option PyVal

/-- Embeds `fetch_weather` (src/main.py lines 83-99).  The input is the outcome
of `session.get`: `Option.none` when the request itself raises (transport
failure or timeout), otherwise the response.  Mirrors the code: a non-200 status
returns `None`; then `data.get("current_weather", {}).get("temperature")` is
returned, where any `AttributeError` from calling `.get` on a non-dict is
swallowed by the `except Exception` clause into `None`.  The returned `PyVal` is
the raw payload value: the code performs no numeric validation on it. -/
def fetch_weather (resp : Option HttpResponse) : PyVal :=
  match resp with
  | Option.none => PyVal.none
  | Option.some r =>
    if r.status ≠ 200 then PyVal.none
    else
      match r.body with
      | Option.none => PyVal.none
      | Option.some data =>
        match pyGet data "current_weather" (PyVal.dict []) with
        | Except.error _ => PyVal.none
        | Except.ok cw =>
          match pyGet cw "temperature" PyVal.none with
          | Except.error _ => PyVal.none
          | Except.ok t => t

/-- Python `isinstance(v, float)`: whether a fetched value is an actual float. -/
def isFloat : PyVal → Bool
  | PyVal.float _ => true
  | _ => false

/-- The only unhandled fault the verified routes can raise: attribute access on
`None` (`user.id` with no logged-in user). -/
inductive PyError where
  | attributeError
deriving DecidableEq, Repr

/-- The HTTP-level result of a route handler that does not fault. -/
inductive HttpResult where
  | redirect (location : String) (statusCode : Nat)
  | template (templateName : String)
deriving DecidableEq, Repr

/-- Embeds `get_current_user` (src/main.py lines 74-80): returns `None` when the
`user_id` cookie is absent or falsy (`not user_id` also catches the integer 0),
otherwise the first user row with that id (or `None` when no such row exists). -/
def get_current_user (cookie : Option Int) (users : List User) : Option User :=
  match cookie with
  | Option.none => Option.none
  | Option.some uid =>
    if uid = 0 then Option.none
    else users.find? (fun u => (u.id : Int) == uid)

/-- Embeds `read_root` (src/main.py lines 102-120): with no current user it
redirects to `/login` with status 303; otherwise it renders `index.html` (the
ordered city query and template rendering are outside the verified core and are
abstracted into the template result). -/
def read_root (user : Option User) (_cities : List City) :
    Except PyError HttpResult :=
  match user with
  | Option.none => Except.ok (HttpResult.redirect "/login" 303)
  | Option.some _ => Except.ok (HttpResult.template "index.html")

/-- Embeds `add_city` (src/main.py lines 123-148).  The handler immediately
evaluates `user.id` inside the duplicate query, so a `None` user raises
`AttributeError`.  If a city with the same name already exists for this user it
redirects without inserting; otherwise it inserts a new city with NULL
temperature and timestamp (`nextId` models the autoincrement primary key). -/
def add_city (user : Option User) (cities : List City) (name : String)
    (latitude longitude : Rat) (nextId : Nat) :
    Except PyError (List City × HttpResult) :=
  match user with
  | Option.none => Except.error PyError.attributeError
  | Option.some u =>
    if cities.any (fun c => c.name == name && c.user_id == u.id) then
      Except.ok (cities, HttpResult.redirect "/" 303)
    else
      let newCity : City :=
        { id := nextId, name := name, latitude := latitude,
          longitude := longitude, temperature := Option.none,
          updated_at := Option.none, user_id := u.id }
      Except.ok (cities ++ [newCity], HttpResult.redirect "/" 303)

/-- Removes the first city matching `.first()`'s filter in `remove_city`
(id and owner), leaving the table unchanged when none matches. -/
def removeFirst (cities : List City) (cityId uid : Nat) : List City :=
  match cities with
  | [] => []
  | c :: rest =>
    if c.id == cityId && c.user_id == uid then rest
    else c :: removeFirst rest cityId uid

/-- Embeds `remove_city` (src/main.py lines 151-166): dereferences `user.id` in
the query (faulting on a `None` user), deletes the matching owned city when it
exists, and redirects. -/
def remove_city (user : Option User) (cities : List City) (cityId : Nat) :
    Except PyError (List City × HttpResult) :=
  match user with
  | Option.none => Except.error PyError.attributeError
  | Option.some u =>
    Except.ok (removeFirst cities cityId u.id, HttpResult.redirect "/" 303)

/-- Embeds `reset_cities` (src/main.py lines 169-186): dereferences `user.id`
(faulting on a `None` user), deletes all of the user's cities, and re-inserts a
fresh copy of every default city (NULL temperature and timestamp; `nextId`
models the autoincrement primary key). -/
def reset_cities (user : Option User) (cities : List City)
    (defaults : List DefaultCity) (nextId : Nat) :
    Except PyError (List City × HttpResult) :=
  match user with
  | Option.none => Except.error PyError.attributeError
  | Option.some u =>
    let freshDefault : Nat × DefaultCity → City := fun p =>
      { id := nextId + p.1, name := p.2.name, latitude := p.2.latitude,
        longitude := p.2.longitude, temperature := Option.none,
        updated_at := Option.none, user_id := u.id }
    Except.ok
      ((cities.filter (fun c => !(c.user_id == u.id))) ++
        defaults.enum.map freshDefault,
       HttpResult.redirect "/" 303)

/-- Embeds `update_weather` (src/main.py lines 189-211): dereferences `user.id`
in the city query (faulting on a `None` user), samples `now` once, runs the
gathered `update_city` batch over the user's cities with the 15-minute cooldown
(900 time units), commits, and redirects.  Other users' rows are untouched. -/
def update_weather (user : Option User) (cities : List City)
    (provider : Rat → Rat → Option Rat) (now : Int) :
    Except PyError (List City × HttpResult) :=
  match user with
  | Option.none => Except.error PyError.attributeError
  | Option.some u =>
    Except.ok
      (cities.map (fun c =>
        if c.user_id == u.id then update_city provider now 900 c else c),
       HttpResult.redirect "/" 303)

/-- A city with a previously cached temperature, used to exercise the
failed-fetch path of `update_city`. -/
def cachedCity : City :=
  { id := 1, name := "A", latitude := 10, longitude := 20,
    temperature := Option.some 20, updated_at := Option.some 0, user_id := 7 }

/-- A freshly created city (both optional columns NULL), as `add_city` creates
them (src/main.py lines 139-144). -/
def freshCity : City :=
  { id := 2, name := "B", latitude := 30, longitude := 40,
    temperature := Option.none, updated_at := Option.none, user_id := 7 }

/-- An eligible city that has never been fetched. -/
def cityA : City :=
  { id := 1, name := "A", latitude := 1, longitude := 1,
    temperature := Option.none, updated_at := Option.none, user_id := 7 }

/-- An eligible city with a stale cached reading. -/
def cityB : City :=
  { id := 2, name := "B", latitude := 2, longitude := 2,
    temperature := Option.some 3, updated_at := Option.some 0, user_id := 7 }

/-- A third eligible city. -/
def cityC : City :=
  { id := 3, name := "C", latitude := 3, longitude := 3,
    temperature := Option.none, updated_at := Option.some 0, user_id := 7 }

/-- A provider that fails exactly for `cityB`'s coordinates and returns 15
degrees elsewhere. -/
def failOnB : Rat → Rat → Option Rat :=
  fun la _ => if la = 2 then Option.none else Option.some 15

/-- A provider that always succeeds with 1 degree. -/
def okProvider : Rat → Rat → Option Rat := fun _ _ => Option.some 1

/-- A second always-succeeding provider, for the repeated-refresh scenario. -/
def okProviderTwo : Rat → Rat → Option Rat := fun _ _ => Option.some 2

/-- A 200 response whose payload carries a non-numeric temperature value. -/
def malformedResp : HttpResponse :=
  { status := 200,
    body := Option.some (PyVal.dict
      [("current_weather", PyVal.dict [("temperature", PyVal.str "hot")])]) }

/-- The owner used in concrete route scenarios. -/
def userBob : User := { id := 7, username := "bob" }

/-- C1. The refresh-eligibility check returns true when the last-refreshed
timestamp is absent; for a present timestamp it returns true exactly when
`now - lastRefreshedAt > cooldown`, and in particular returns false when the
elapsed time equals the cooldown. -/
theorem is_eligible_spec (u : Option Int) (now cooldown : Int) :
    (u = Option.none → is_eligible u now cooldown = true) ∧
    (∀ t, u = Option.some t →
      (is_eligible u now cooldown = true ↔ now - t > cooldown)) ∧
    (∀ t, u = Option.some t → now - t = cooldown →
      is_eligible u now cooldown = false) := by
  refine ⟨fun h => ?_, fun t ht => ?_, fun t ht heq => ?_⟩
  · subst h; rfl
  · subst ht; simp [is_eligible]
  · subst ht; simp [is_eligible, heq]

theorem is_eligible_spec_witness :
    is_eligible Option.none 1000 900 = true ∧
    is_eligible (Option.some 0) 1000 900 = true ∧
    is_eligible (Option.some 100) 1000 900 = false :=
  ⟨(is_eligible_spec Option.none 1000 900).1 rfl,
   ((is_eligible_spec (Option.some 0) 1000 900).2.1 0 rfl).mpr (by decide),
   (is_eligible_spec (Option.some 100) 1000 900).2.2 100 rfl (by decide)⟩

/-- C2 (code behavior at the failing input). With a provider that always fails,
refreshing an eligible city that holds the cached temperature `20` advances its
timestamp to `now` but overwrites the cached value with `None`: the code clears
the previous reading on fetch failure instead of preserving it. -/
theorem update_city_fetch_failure_clears_cache :
    cachedCity.temperature = Option.some 20 ∧
    is_eligible cachedCity.updated_at 1000 900 = true ∧
    (update_city (fun _ _ => Option.none) 1000 900 cachedCity).temperature
      = Option.none ∧
    (update_city (fun _ _ => Option.none) 1000 900 cachedCity).updated_at
      = Option.some 1000 := by
  refine ⟨rfl, by decide, ?_, ?_⟩ <;>
    simp [update_city, cachedCity, is_eligible]

/-- C3 (counterexample). A newly created city satisfies the Point invariant,
but a single refresh attempt whose fetch fails sets `updated_at := now` while
leaving `temperature` absent, so the invariant is broken by one operation. -/
theorem pointInv_violated_on_failed_fetch :
    pointInv freshCity ∧
    ¬ pointInv (update_city (fun _ _ => Option.none) 1000 900 freshCity) := by
  constructor
  · decide
  · simp [pointInv, update_city, freshCity, is_eligible]

/-- C3 (amended). In any refresh batch in which the provider succeeds for every
city, the Point invariant is preserved: a successful fetch sets temperature and
timestamp together, and skipped cities are untouched.  (As stated over arbitrary
batches the claim is false: a failed fetch sets `updated_at` without
`temperature`, see the counterexample.) -/
theorem refreshAll_preserves_pointInv_on_success
    (provider : Rat → Rat → Option Rat) (now cooldown : Int)
    (cities : List City)
    (hp : ∀ c ∈ cities, (provider c.latitude c.longitude).isSome = true)
    (hi : ∀ c ∈ cities, pointInv c) :
    ∀ c ∈ refreshAll provider now cooldown cities, pointInv c := by
  intro c hc
  rcases List.mem_map.mp hc with ⟨c0, hc0, rfl⟩
  unfold update_city
  by_cases h : is_eligible c0.updated_at now cooldown = true
  · simp only [h, if_true]
    simpa [pointInv] using hp c0 hc0
  · simp only [h]
    simpa using hi c0 hc0

theorem refreshAll_preserves_pointInv_on_success_witness :
    pointInv (update_city (fun _ _ => Option.some 5) 1000 900 cachedCity) :=
  refreshAll_preserves_pointInv_on_success (fun _ _ => Option.some 5) 1000 900
    [cachedCity, freshCity] (by decide) (by decide)
    (update_city (fun _ _ => Option.some 5) 1000 900 cachedCity)
    (by simp [refreshAll])

/-- Helper: `update_city` leaves an ineligible city untouched (the eligibility
test on line 200 guards the whole mutation). -/
theorem update_city_not_eligible (provider : Rat → Rat → Option Rat)
    (now cooldown : Int) (c : City)
    (h : is_eligible c.updated_at now cooldown = false) :
    update_city provider now cooldown c = c := by
  simp [update_city, h]

/-- C4. Failure isolation: the batch maps every city (no dispatched fetch is
dropped), and in a batch of three eligible cities where the provider fails for
exactly the middle one, the two others receive their fetched temperatures
(present values) with timestamp `now`, while the failing one receives an absent
temperature and timestamp `now`; the failure does not alter the siblings. -/
theorem refresh_failure_isolation
    (provider : Rat → Rat → Option Rat) (now cooldown : Int) (c1 c2 c3 : City)
    (h1 : is_eligible c1.updated_at now cooldown = true)
    (h2 : is_eligible c2.updated_at now cooldown = true)
    (h3 : is_eligible c3.updated_at now cooldown = true)
    (hf : provider c2.latitude c2.longitude = Option.none)
    (hs1 : (provider c1.latitude c1.longitude).isSome = true)
    (hs3 : (provider c3.latitude c3.longitude).isSome = true) :
    refreshAll provider now cooldown [c1, c2, c3] =
      [{ c1 with temperature := provider c1.latitude c1.longitude,
                 updated_at := Option.some now },
       { c2 with temperature := Option.none, updated_at := Option.some now },
       { c3 with temperature := provider c3.latitude c3.longitude,
                 updated_at := Option.some now }] ∧
    (provider c1.latitude c1.longitude).isSome = true ∧
    (provider c3.latitude c3.longitude).isSome = true := by
  refine ⟨?_, hs1, hs3⟩
  simp [refreshAll, update_city, h1, h2, h3, hf]

theorem refresh_failure_isolation_witness :
    refreshAll failOnB 1000 900 [cityA, cityB, cityC] =
      [{ cityA with temperature := failOnB cityA.latitude cityA.longitude,
                    updated_at := Option.some 1000 },
       { cityB with temperature := Option.none, updated_at := Option.some 1000 },
       { cityC with temperature := failOnB cityC.latitude cityC.longitude,
                    updated_at := Option.some 1000 }] ∧
    (failOnB cityA.latitude cityA.longitude).isSome = true ∧
    (failOnB cityC.latitude cityC.longitude).isSome = true :=
  refresh_failure_isolation failOnB 1000 900 cityA cityB cityC
    (by decide) (by decide) (by decide) (by decide) (by decide) (by decide)

/-- C5. A city judged ineligible is not mutated at all (`update_city` is the
identity on it, so temperature and timestamp keep their pre-batch values), it is
not among the cities for which a network fetch is dispatched, and for every city
in the batch the non-temperature/timestamp fields (`id`, `name`, `latitude`,
`longitude`, `user_id`) are left untouched. -/
theorem skipped_point_unchanged
    (provider : Rat → Rat → Option Rat) (now cooldown : Int)
    (cities : List City) (c : City) (_hc : c ∈ cities)
    (h : is_eligible c.updated_at now cooldown = false) :
    update_city provider now cooldown c = c ∧
    c ∉ fetchedCities now cooldown cities ∧
    ∀ x ∈ cities,
      (update_city provider now cooldown x).id = x.id ∧
      (update_city provider now cooldown x).name = x.name ∧
      (update_city provider now cooldown x).latitude = x.latitude ∧
      (update_city provider now cooldown x).longitude = x.longitude ∧
      (update_city provider now cooldown x).user_id = x.user_id := by
  refine ⟨?_, ?_, ?_⟩
  · simp [update_city, h]
  · simp [fetchedCities, List.mem_filter, h]
  · intro x _
    unfold update_city
    by_cases hx : is_eligible x.updated_at now cooldown = true <;> simp [hx]

theorem skipped_point_unchanged_witness :
    update_city okProvider 500 900 cityB = cityB ∧
    cityB ∉ fetchedCities 500 900 [cityA, cityB] ∧
    ∀ x ∈ [cityA, cityB],
      (update_city okProvider 500 900 x).id = x.id ∧
      (update_city okProvider 500 900 x).name = x.name ∧
      (update_city okProvider 500 900 x).latitude = x.latitude ∧
      (update_city okProvider 500 900 x).longitude = x.longitude ∧
      (update_city okProvider 500 900 x).user_id = x.user_id :=
  skipped_point_unchanged okProvider 500 900 [cityA, cityB] cityB
    (by decide) (by decide)

/-- C6. Idempotence within the cooldown window: with a positive cooldown, every
city refreshed in a first pass at time `now` has its timestamp advanced to `now`
and is therefore ineligible in a second pass with the same `now`, so the second
pass leaves it unchanged; moreover the second pass over the whole batch
dispatches no network fetch at all. -/
theorem refresh_idempotent_within_cooldown
    (p q : Rat → Rat → Option Rat) (now cooldown : Int) (cities : List City)
    (hcd : 0 < cooldown) :
    (∀ c ∈ cities, is_eligible c.updated_at now cooldown = true →
      is_eligible (update_city p now cooldown c).updated_at now cooldown = false ∧
      update_city q now cooldown (update_city p now cooldown c)
        = update_city p now cooldown c) ∧
    fetchedCities now cooldown (refreshAll p now cooldown cities) = [] := by
  have key : ∀ c : City,
      is_eligible (update_city p now cooldown c).updated_at now cooldown = false := by
    intro c
    unfold update_city
    by_cases he : is_eligible c.updated_at now cooldown = true
    · simp only [he, if_true]
      simp [is_eligible]
      omega
    · simp only [he, if_false]
      simpa using he
  constructor
  · intro c _ _
    exact ⟨key c, update_city_not_eligible q now cooldown _ (key c)⟩
  · unfold fetchedCities refreshAll
    rw [List.filter_eq_nil_iff]
    intro c hc
    rcases List.mem_map.mp hc with ⟨c0, _, rfl⟩
    simp [key c0]

theorem refresh_idempotent_within_cooldown_witness :
    (∀ c ∈ [cityA, cityB], is_eligible c.updated_at 1000 900 = true →
      is_eligible (update_city okProvider 1000 900 c).updated_at 1000 900 = false ∧
      update_city okProviderTwo 1000 900 (update_city okProvider 1000 900 c)
        = update_city okProvider 1000 900 c) ∧
    fetchedCities 1000 900 (refreshAll okProvider 1000 900 [cityA, cityB]) = [] :=
  refresh_idempotent_within_cooldown okProvider okProviderTwo 1000 900
    [cityA, cityB] (by decide)

/-- C7 (counterexample). A well-formed 200 response whose
`current_weather.temperature` field holds the string `"hot"` is not reported as
a fetch failure: `fetch_weather` returns the string verbatim, a non-float,
non-`None` value, contradicting "any malformed payload field is reported as a
fetch failure and no partially-valid value is ever returned". -/
theorem fetch_weather_returns_nonnumeric_temperature :
    fetch_weather (Option.some malformedResp) = PyVal.str "hot" ∧
    fetch_weather (Option.some malformedResp) ≠ PyVal.none ∧
    isFloat (fetch_weather (Option.some malformedResp)) = false := by
  have e : fetch_weather (Option.some malformedResp) = PyVal.str "hot" := rfl
  refine ⟨e, ?_, by rw [e]; rfl⟩
  rw [e]
  simp

/-- C7 (amended). `fetch_weather` is total, and every non-`None` result comes
from a status-200 response with a dict payload whose `current_weather` entry is
a dict: transport failures, non-200 statuses, unparsable bodies, non-dict
payloads, non-dict `current_weather` entries, and missing or null `temperature`
fields are all reported as `None` (fetch failure).  However, a present non-null
`temperature` value is returned verbatim with no numeric validation, so a
malformed (non-numeric) temperature value is returned as a success value. -/
theorem fetch_weather_failure_modes (resp : Option HttpResponse)
    (hne : fetch_weather resp ≠ PyVal.none) :
    ∃ r xs cws, resp = Option.some r ∧ r.status = 200 ∧
      r.body = Option.some (PyVal.dict xs) ∧
      pyDictGet xs "current_weather" (PyVal.dict []) = PyVal.dict cws ∧
      fetch_weather resp = pyDictGet cws "temperature" PyVal.none := by
  rcases resp with _ | r
  · exact absurd rfl hne
  by_cases hs : r.status = 200
  case neg => exact absurd (by simp [fetch_weather, hs]) hne
  rcases hb : r.body with _ | data
  · exact absurd (by simp [fetch_weather, hs, hb]) hne
  cases data with
  | dict xs =>
    cases hcw : pyDictGet xs "current_weather" (PyVal.dict []) with
    | dict cws =>
      exact ⟨r, xs, cws, rfl, hs, hb, hcw,
        by simp [fetch_weather, pyGet, hs, hb, hcw]⟩
    | none => exact absurd (by simp [fetch_weather, pyGet, hs, hb, hcw]) hne
    | bool b => exact absurd (by simp [fetch_weather, pyGet, hs, hb, hcw]) hne
    | int n => exact absurd (by simp [fetch_weather, pyGet, hs, hb, hcw]) hne
    | float q => exact absurd (by simp [fetch_weather, pyGet, hs, hb, hcw]) hne
    | str s => exact absurd (by simp [fetch_weather, pyGet, hs, hb, hcw]) hne
    | list l => exact absurd (by simp [fetch_weather, pyGet, hs, hb, hcw]) hne
  | none => exact absurd (by simp [fetch_weather, pyGet, hs, hb]) hne
  | bool b => exact absurd (by simp [fetch_weather, pyGet, hs, hb]) hne
  | int n => exact absurd (by simp [fetch_weather, pyGet, hs, hb]) hne
  | float q => exact absurd (by simp [fetch_weather, pyGet, hs, hb]) hne
  | str s => exact absurd (by simp [fetch_weather, pyGet, hs, hb]) hne
  | list l => exact absurd (by simp [fetch_weather, pyGet, hs, hb]) hne

theorem fetch_weather_failure_modes_witness :
    ∃ r xs cws, Option.some malformedResp = Option.some r ∧ r.status = 200 ∧
      r.body = Option.some (PyVal.dict xs) ∧
      pyDictGet xs "current_weather" (PyVal.dict []) = PyVal.dict cws ∧
      fetch_weather (Option.some malformedResp)
        = pyDictGet cws "temperature" PyVal.none :=
  fetch_weather_failure_modes (Option.some malformedResp)
    (by rw [show fetch_weather (Option.some malformedResp)
              = PyVal.str "hot" from rfl]
        simp)

/-- C8. Inserting a city whose name the owner already tracks is a no-op
rejection: the handler answers with the normal redirect and the city table
(hence the owner's point set and its count) is returned unchanged. -/
theorem duplicate_insert_noop (u : User) (cities : List City) (name : String)
    (latitude longitude : Rat) (nextId : Nat)
    (h : ∃ c ∈ cities, c.name = name ∧ c.user_id = u.id) :
    add_city (Option.some u) cities name latitude longitude nextId
      = Except.ok (cities, HttpResult.redirect "/" 303) := by
  rcases h with ⟨c, hc, hn, hu⟩
  have hany : cities.any (fun x => x.name == name && x.user_id == u.id) = true := by
    rw [List.any_eq_true]
    exact ⟨c, hc, by simp [hn, hu]⟩
  simp [add_city, hany]

theorem duplicate_insert_noop_witness :
    add_city (Option.some userBob) [cityA] "A" 5 6 99
      = Except.ok ([cityA], HttpResult.redirect "/" 303) :=
  duplicate_insert_noop userBob [cityA] "A" 5 6 99
    ⟨cityA, by simp, rfl, rfl⟩

/-- C9. The clock is sampled once per batch (`now = datetime.utcnow()` before
the gather), so every city refreshed in the batch — whether its fetch succeeded
or failed, the provider being arbitrary here — gets `updated_at = now`, and any
two refreshed cities of the batch carry the identical timestamp. -/
theorem batch_timestamp_uniform (provider : Rat → Rat → Option Rat)
    (now cooldown : Int) (cities : List City) :
    (∀ c ∈ cities, is_eligible c.updated_at now cooldown = true →
      (update_city provider now cooldown c).updated_at = Option.some now) ∧
    (∀ c ∈ cities, ∀ d ∈ cities,
      is_eligible c.updated_at now cooldown = true →
      is_eligible d.updated_at now cooldown = true →
      (update_city provider now cooldown c).updated_at
        = (update_city provider now cooldown d).updated_at) := by
  have key : ∀ c : City, is_eligible c.updated_at now cooldown = true →
      (update_city provider now cooldown c).updated_at = Option.some now := by
    intro c hc
    simp [update_city, hc]
  exact ⟨fun c _ he => key c he,
    fun c _ d _ hc hd => (key c hc).trans (key d hd).symm⟩

theorem batch_timestamp_uniform_witness :
    (update_city failOnB 1000 900 cityA).updated_at = Option.some 1000 ∧
    (update_city failOnB 1000 900 cityA).updated_at
      = (update_city failOnB 1000 900 cityB).updated_at :=
  ⟨(batch_timestamp_uniform failOnB 1000 900 [cityA, cityB]).1 cityA
      (by simp) (by decide),
   (batch_timestamp_uniform failOnB 1000 900 [cityA, cityB]).2 cityA
      (by simp) cityB (by simp) (by decide) (by decide)⟩

/-- C10. With no `user_id` cookie or an unknown user id, `get_current_user`
yields no user; the root page then returns a 303 redirect to `/login`, while
the add-city, remove-city, reset and refresh handlers all dereference
`user.id` on `None` and raise an unhandled `AttributeError` instead of
redirecting or no-opping. -/
theorem auth_handling_by_endpoint
    (cookie : Option Int) (users : List User) (cities : List City)
    (defaults : List DefaultCity) (name : String) (latitude longitude : Rat)
    (nextId cityId : Nat) (provider : Rat → Rat → Option Rat) (now : Int)
    (h : cookie = Option.none ∨
      ∃ uid, cookie = Option.some uid ∧ ∀ u ∈ users, (u.id : Int) ≠ uid) :
    get_current_user cookie users = Option.none ∧
    read_root (get_current_user cookie users) cities
      = Except.ok (HttpResult.redirect "/login" 303) ∧
    add_city (get_current_user cookie users) cities name latitude longitude nextId
      = Except.error PyError.attributeError ∧
    remove_city (get_current_user cookie users) cities cityId
      = Except.error PyError.attributeError ∧
    reset_cities (get_current_user cookie users) cities defaults nextId
      = Except.error PyError.attributeError ∧
    update_weather (get_current_user cookie users) cities provider now
      = Except.error PyError.attributeError := by
  have hu : get_current_user cookie users = Option.none := by
    rcases h with rfl | ⟨uid, rfl, hall⟩
    · rfl
    · by_cases hz : uid = 0
      · simp [get_current_user, hz]
      · simp [get_current_user, hz, List.find?_eq_none]
        intro u hmem
        simpa using hall u hmem
  refine ⟨hu, ?_, ?_, ?_, ?_, ?_⟩ <;> rw [hu] <;> rfl

theorem auth_handling_by_endpoint_witness :
    get_current_user Option.none [userBob] = Option.none ∧
    read_root (get_current_user Option.none [userBob]) [cityA]
      = Except.ok (HttpResult.redirect "/login" 303) ∧
    add_city (get_current_user Option.none [userBob]) [cityA] "X" 0 0 9
      = Except.error PyError.attributeError ∧
    remove_city (get_current_user Option.none [userBob]) [cityA] 1
      = Except.error PyError.attributeError ∧
    reset_cities (get_current_user Option.none [userBob]) [cityA] [] 9
      = Except.error PyError.attributeError ∧
    update_weather (get_current_user Option.none [userBob]) [cityA] okProvider 0
      = Except.error PyError.attributeError :=
  auth_handling_by_endpoint Option.none [userBob] [cityA] [] "X" 0 0 9 1
    okProvider 0 (Or.inl rfl)
